import Mathlib

/-!
# Insurance record service: `route/api.js`

A shallow embedding of the five route handlers of `route/api.js` and of the
single-table store they talk to.

* A request field is a `JsVal` (what the framework hands the handler after
  parsing the query string or the JSON body); `!v` is `!v.truthy`.  `req.query`
  and `req.body` are taken to be objects, so that destructuring them yields
  `undefined` for an absent field.
* The table `insurance` is a list of rows in storage order.  Its columns other
  than `id` are nullable text (`Option String`); `id` is the store-assigned key.
* `pool.query(text, params)` is `poolQuery`: the statement is one of the five
  statements of the file, with its bound parameters.  Whether the store fails
  (for whatever reason, with whatever message), which key it assigns and what
  the clock reads are inputs (`Env`), since the handler does not control them.
  A failed statement leaves the table as it was.
* `ILIKE` is the store's native operator: a pattern match (`%`, `_`, escape
  character) on case-folded text.  The folding modelled is that of the basic
  Latin letters `A`-`Z` only; how the store folds other letters (`É`, `é`)
  depends on its locale and is outside the model, so nothing is stated about
  texts that differ in the case of such a letter.
-/

namespace InsuranceApi

/-! ## Request values -/

/-- A value of a request field.  `undefined` is an absent field.  `num` stands for an
integer-valued JSON number (one whose text form is its decimal form), `obj` for an array or
object, carried by the text the driver binds for it. -/
inductive JsVal where
  | undefined
  | null
  | bool (b : Bool)
  | num (n : Int)
  | str (s : String)
  | obj (text : String)
  deriving DecidableEq, Repr

/-- JavaScript truthiness: `!v` holds exactly when `truthy v = false`. -/
def JsVal.truthy : JsVal → Bool
  | .undefined => false
  | .null => false
  | .bool b => b
  | .num n => n != 0
  | .str s => s != ""
  | .obj _ => true

/-- The driver's conversion of a bound parameter: `null` and `undefined` are sent as
SQL NULL, a string as itself, every other value through its text form. -/
def prepareValue : JsVal → Option String
  | .undefined => none
  | .null => none
  | .bool b => some (if b then "true" else "false")
  | .num n => some (toString n)
  | .str s => some s
  | .obj text => some text

/-! ## The table -/

/-- One row of the table `insurance`. -/
structure Row where
  id : Nat
  name : Option String
  model : Option String
  vehicle_number : Option String
  contact_number : Option String
  insurer : Option String
  due_date : Option String
  joining_date : Option String
  deriving DecidableEq, Repr

/-- The table, in storage order. -/
abbrev Table := List Row

/-! ## The store's `ILIKE` operator -/

/-- The escape character of a `LIKE` pattern (the backslash). -/
def escapeChar : Char := Char.ofNat 92

/-- Does `f` accept some suffix of the text (the text itself and the empty suffix included)? -/
def anySuffix (f : List Char → Bool) : List Char → Bool
  | [] => f []
  | c :: t => f (c :: t) || anySuffix f t

/-- The matcher of `LIKE`, pattern first, then whether the first pattern character follows the
escape character (and so is literal), then the text: `%` stands for any run of characters, `_` for
any one character, the escape character makes the next pattern character literal.  A pattern that
ends in a lone escape character matches nothing here; the store raises an error when its matcher
reaches one, which is a failed query (`Env.fault`). -/
def likeFrom : List Char → Bool → List Char → Bool
  | [], lit, t => !lit && t.isEmpty
  | c :: p, lit, t =>
    if lit then
      match t with
      | [] => false
      | x :: t' => decide (c = x) && likeFrom p false t'
    else if c = '%' then anySuffix (likeFrom p false) t
    else if c = '_' then
      match t with
      | [] => false
      | _ :: t' => likeFrom p false t'
    else if c = escapeChar then likeFrom p true t
    else
      match t with
      | [] => false
      | x :: t' => decide (c = x) && likeFrom p false t'

/-- The pattern match of `LIKE`: does the pattern match the whole text? -/
def likeMatch (pattern text : List Char) : Bool := likeFrom pattern false text

/-- Case folding of a text, character by character: the basic Latin letters `A`-`Z` go to
`a`-`z`, every other character is kept, a letter such as `É` included. -/
def lower (s : String) : List Char := s.data.map Char.toLower

/-- The operator `text ILIKE pattern` on two non-NULL texts: `LIKE` after case folding of both. -/
def ilike (text pattern : String) : Bool := likeMatch (lower pattern) (lower text)

/-- The condition `col ILIKE $n` in a WHERE clause: it selects a row only when it is true, and it is
NULL (not true) when the column or the parameter is NULL. -/
def ilikeSql (col pat : Option String) : Bool :=
  match col, pat with
  | some t, some p => ilike t p
  | _, _ => false

/-! ## Statements and the pool -/

/-- The five statements of the file, with their bound parameters `$1, $2, ...`. -/
inductive Statement where
  /-- `SELECT * FROM insurance` -/
  | selectAll
  /-- `SELECT * FROM insurance WHERE name ILIKE $1 AND model ILIKE $2` -/
  | selectWhere (p1 p2 : Option String)
  /-- `DELETE FROM insurance WHERE name ILIKE $1 AND model ILIKE $2 AND contact_number ILIKE $3` -/
  | deleteWhere (p1 p2 p3 : Option String)
  /-- `UPDATE insurance SET name = $1, model = $2, vehicle_number = $3, due_date = $4,
  contact_number = $5, insurer = $6 WHERE name ILIKE $1 AND model ILIKE $2 AND
  vehicle_number ILIKE $3` -/
  | updateWhere (p1 p2 p3 p4 p5 p6 : Option String)
  /-- `INSERT INTO insurance (name, due_date, vehicle_number, contact_number, model, insurer,
  joining_date) VALUES ($1, ..., $7) RETURNING id, name, ...` -/
  | insertReturning (p1 p2 p3 p4 p5 p6 p7 : Option String)
  deriving DecidableEq, Repr

/-- WHERE clause of the search statement. -/
def searchWhere (p1 p2 : Option String) (r : Row) : Bool :=
  ilikeSql r.name p1 && ilikeSql r.model p2

/-- WHERE clause of the delete statement. -/
def deleteCond (p1 p2 p3 : Option String) (r : Row) : Bool :=
  ilikeSql r.name p1 && ilikeSql r.model p2 && ilikeSql r.contact_number p3

/-- WHERE clause of the update statement. -/
def updateCond (p1 p2 p3 : Option String) (r : Row) : Bool :=
  ilikeSql r.name p1 && ilikeSql r.model p2 && ilikeSql r.vehicle_number p3

/-- SET clause of the update statement: six columns are assigned, `id` and `joining_date`
are not named. -/
def updateSet (p1 p2 p3 p4 p5 p6 : Option String) (r : Row) : Row :=
  { r with name := p1, model := p2, vehicle_number := p3, due_date := p4,
           contact_number := p5, insurer := p6 }

/-- The row an insert creates, with the key the store assigns. -/
def insertedRow (freshId : Nat) (p1 p2 p3 p4 p5 p6 p7 : Option String) : Row :=
  { id := freshId, name := p1, due_date := p2, vehicle_number := p3, contact_number := p4,
    model := p5, insurer := p6, joining_date := p7 }

/-- A statement the store executes: the rows it returns and the table afterwards. -/
def execute (t : Table) (freshId : Nat) : Statement → List Row × Table
  | .selectAll => (t, t)
  | .selectWhere p1 p2 => (t.filter (searchWhere p1 p2), t)
  | .deleteWhere p1 p2 p3 => ([], t.filter (fun r => !deleteCond p1 p2 p3 r))
  | .updateWhere p1 p2 p3 p4 p5 p6 =>
    ([], t.map (fun r => if updateCond p1 p2 p3 r then updateSet p1 p2 p3 p4 p5 p6 r else r))
  | .insertReturning p1 p2 p3 p4 p5 p6 p7 =>
    ([insertedRow freshId p1 p2 p3 p4 p5 p6 p7], t ++ [insertedRow freshId p1 p2 p3 p4 p5 p6 p7])

/-- What a request does not control: whether the store fails on the query of this request (and
with which error message), the key the store assigns to an inserted row, and the clock reading
`new Date().toISOString()`. -/
structure Env where
  fault : Option String
  freshId : Nat
  now : String
  deriving DecidableEq, Repr

/-- `await pool.query(text, params)`: the promise rejects with the error, with the table left as
it was, or resolves with the returned rows. -/
def poolQuery (e : Env) (t : Table) (st : Statement) : Except String (List Row) × Table :=
  match e.fault with
  | some m => (.error m, t)
  | none => (.ok (execute t e.freshId st).1, (execute t e.freshId st).2)

/-! ## Responses -/

/-- The body of a response. -/
inductive Body where
  /-- `res.json(result.rows)` -/
  | rows (rs : List Row)
  /-- `res.send(err.message)` -/
  | text (m : String)
  /-- `res.json({ status: s })` -/
  | status (s : String)
  /-- `res.json({ error: m })` -/
  | error (m : String)
  /-- `res.json({ success: true, data: d })` -/
  | success (data : Option Row)
  /-- `res.json({ success: false, error: m })` -/
  | failure (m : String)
  deriving DecidableEq, Repr

/-- A response: the status code (200 unless `res.status` sets it) and the body. -/
structure Response where
  code : Nat
  body : Body
  deriving DecidableEq, Repr

/-- What handling one request amounts to: the response, the table afterwards, and the statements
sent to the pool. -/
structure Outcome where
  response : Response
  table : Table
  issued : List Statement
  deriving DecidableEq, Repr

/-! ## The five handlers -/

/-- `router.get("/getAll")`. -/
def getAll (e : Env) (t : Table) : Outcome :=
  match poolQuery e t .selectAll with
  | (.ok rows, t') => ⟨⟨200, .rows rows⟩, t', [.selectAll]⟩
  | (.error m, t') => ⟨⟨500, .text m⟩, t', [.selectAll]⟩

/-- `router.get("/search")`, with `name` and `model` of `req.query`. -/
def search (e : Env) (t : Table) (name model : JsVal) : Outcome :=
  let st := Statement.selectWhere (prepareValue name) (prepareValue model)
  match poolQuery e t st with
  | (.ok rows, t') => ⟨⟨200, .rows rows⟩, t', [st]⟩
  | (.error m, t') => ⟨⟨500, .text m⟩, t', [st]⟩

/-- `router.get("/delete")`, with `name`, `model` and `contact_number` of `req.query`. -/
def delete (e : Env) (t : Table) (name model contact_number : JsVal) : Outcome :=
  let st := Statement.deleteWhere (prepareValue name) (prepareValue model)
    (prepareValue contact_number)
  match poolQuery e t st with
  | (.ok _, t') => ⟨⟨200, .status "deleted"⟩, t', [st]⟩
  | (.error m, t') => ⟨⟨500, .text m⟩, t', [st]⟩

/-- `router.put("/update")`, with `name`, `model`, `vehicle_number` of `req.query` and `due_date`,
`contact_number`, `insurer` of `req.body`. -/
def update (e : Env) (t : Table)
    (name model vehicle_number due_date contact_number insurer : JsVal) : Outcome :=
  if !name.truthy || !model.truthy || !vehicle_number.truthy || !due_date.truthy ||
      !contact_number.truthy || !insurer.truthy then
    ⟨⟨400, .error "Missing one or more required fields"⟩, t, []⟩
  else
    let st := Statement.updateWhere (prepareValue name) (prepareValue model)
      (prepareValue vehicle_number) (prepareValue due_date) (prepareValue contact_number)
      (prepareValue insurer)
    match poolQuery e t st with
    | (.ok _, t') => ⟨⟨200, .status "updated"⟩, t', [st]⟩
    | (.error m, t') => ⟨⟨500, .text m⟩, t', [st]⟩

/-- `router.post("/add")`, with the six fields of `req.body`. -/
def add (e : Env) (t : Table)
    (name due_date vehicle_number contact_number model insurer : JsVal) : Outcome :=
  let joining_date := JsVal.str e.now
  if !name.truthy || !due_date.truthy || !vehicle_number.truthy || !contact_number.truthy ||
      !model.truthy || !insurer.truthy then
    ⟨⟨400, .failure "Missing required fields"⟩, t, []⟩
  else
    let st := Statement.insertReturning (prepareValue name) (prepareValue due_date)
      (prepareValue vehicle_number) (prepareValue contact_number) (prepareValue model)
      (prepareValue insurer) (prepareValue joining_date)
    match poolQuery e t st with
    | (.ok rows, t') => ⟨⟨201, .success rows.head?⟩, t', [st]⟩
    | (.error m, t') => ⟨⟨500, .failure m⟩, t', [st]⟩

/-- A request to the router. -/
inductive Request where
  | getAll
  | search (name model : JsVal)
  | delete (name model contact_number : JsVal)
  | update (name model vehicle_number due_date contact_number insurer : JsVal)
  | add (name due_date vehicle_number contact_number model insurer : JsVal)
  deriving DecidableEq, Repr

/-- The router: each request goes to its handler. -/
def handle (e : Env) (t : Table) : Request → Outcome
  | .getAll => getAll e t
  | .search n m => search e t n m
  | .delete n m c => delete e t n m c
  | .update n m v d c i => update e t n m v d c i
  | .add n d v c m i => add e t n d v c m i

/-- Two texts are letter-case variants in the basic Latin letters when they differ only in the
case of letters `A`-`Z`, `a`-`z`, that is, when `lower` folds them to the same text.  Texts that
differ in the case of any other letter (`Émile`, `émile`) are not variants in this sense: `lower`
keeps them apart, and `ilike` here does not match one by the other, whereas a store whose locale
folds such letters does. -/
def latinCaseVariant (a b : String) : Prop := lower a = lower b

instance (a b : String) : Decidable (latinCaseVariant a b) := by
  unfold latinCaseVariant; exact inferInstance

/-! ## Sample data -/

/-- An environment in which the store executes the query. -/
def envOk : Env := ⟨none, 3, "2024-05-01T10:00:00.000Z"⟩

/-- An environment in which the store fails. -/
def envDown : Env := ⟨some "connection refused", 3, "2024-05-01T10:00:00.000Z"⟩

/-- A row for Alice. -/
def aliceRow : Row :=
  ⟨1, some "Alice", some "Civic", some "KA01AB1234", some "9876543210", some "Acme",
    some "2025-01-31", some "2024-01-01T00:00:00.000Z"⟩

/-- A row for Bob. -/
def bobRow : Row :=
  ⟨2, some "Bob", some "Swift", some "MH02CD5678", some "9123456780", some "Zenith",
    some "2025-03-15", some "2024-02-01T00:00:00.000Z"⟩

/-- A table of two rows. -/
def sampleTable : Table := [aliceRow, bobRow]

/-- A name of three characters, the middle one the escape character. -/
def slashName : String := String.mk ['a', escapeChar, 'b']

/-- A row whose name contains the escape character. -/
def slashRow : Row :=
  ⟨7, some slashName, some "Civic", some "DL03EF9012", some "9000000001", some "Acme",
    some "2025-06-30", some "2024-03-01T00:00:00.000Z"⟩

/-! ## Validation -/

/-- C1. A PUT /update in which one of the six fields is absent or falsy is answered with status 400
and `{error: "Missing one or more required fields"}`; no statement is sent to the pool and the
table is what it was. -/
theorem update_missing_field_rejected (e : Env) (t : Table)
    (name model vehicle_number due_date contact_number insurer : JsVal)
    (h : name.truthy = false ∨ model.truthy = false ∨ vehicle_number.truthy = false ∨
      due_date.truthy = false ∨ contact_number.truthy = false ∨ insurer.truthy = false) :
    (update e t name model vehicle_number due_date contact_number insurer).response
        = ⟨400, .error "Missing one or more required fields"⟩ ∧
      (update e t name model vehicle_number due_date contact_number insurer).issued = [] ∧
      (update e t name model vehicle_number due_date contact_number insurer).table = t := by
  have hc : (!name.truthy || !model.truthy || !vehicle_number.truthy || !due_date.truthy ||
      !contact_number.truthy || !insurer.truthy) = true := by
    rcases h with h | h | h | h | h | h <;> simp [h]
  simp only [update, hc, if_true, and_self]

/-- C2. A POST /add whose body lacks one of the six fields (or has a falsy value for it) is
answered with status 400 and a `success: false` body; no row is inserted, no statement is sent,
and a list-all afterwards answers what it would have answered before. -/
theorem add_missing_field_rejected (e e' : Env) (t : Table)
    (name due_date vehicle_number contact_number model insurer : JsVal)
    (h : name.truthy = false ∨ due_date.truthy = false ∨ vehicle_number.truthy = false ∨
      contact_number.truthy = false ∨ model.truthy = false ∨ insurer.truthy = false) :
    (add e t name due_date vehicle_number contact_number model insurer).response
        = ⟨400, .failure "Missing required fields"⟩ ∧
      (add e t name due_date vehicle_number contact_number model insurer).issued = [] ∧
      (add e t name due_date vehicle_number contact_number model insurer).table = t ∧
      (getAll e' (add e t name due_date vehicle_number contact_number model insurer).table).response
        = (getAll e' t).response := by
  have hc : (!name.truthy || !due_date.truthy || !vehicle_number.truthy ||
      !contact_number.truthy || !model.truthy || !insurer.truthy) = true := by
    rcases h with h | h | h | h | h | h <;> simp [h]
  simp only [add, hc, if_true, and_self]

/-! ## The handlers on their two store outcomes -/

/-- The validation of `update` passes when the six fields are truthy. -/
theorem update_guard_false {name model vehicle_number due_date contact_number insurer : JsVal}
    (hn : name.truthy = true) (hm : model.truthy = true) (hv : vehicle_number.truthy = true)
    (hd : due_date.truthy = true) (hc : contact_number.truthy = true)
    (hi : insurer.truthy = true) :
    (!name.truthy || !model.truthy || !vehicle_number.truthy || !due_date.truthy ||
      !contact_number.truthy || !insurer.truthy) = false := by
  simp [hn, hm, hv, hd, hc, hi]

/-- A valid update that the store executes. -/
theorem update_executed (e : Env) (t : Table)
    {name model vehicle_number due_date contact_number insurer : JsVal}
    (hn : name.truthy = true) (hm : model.truthy = true) (hv : vehicle_number.truthy = true)
    (hd : due_date.truthy = true) (hc : contact_number.truthy = true)
    (hi : insurer.truthy = true) (hf : e.fault = none) :
    update e t name model vehicle_number due_date contact_number insurer =
      ⟨⟨200, .status "updated"⟩,
        t.map (fun r =>
          if updateCond (prepareValue name) (prepareValue model) (prepareValue vehicle_number) r
          then updateSet (prepareValue name) (prepareValue model) (prepareValue vehicle_number)
            (prepareValue due_date) (prepareValue contact_number) (prepareValue insurer) r
          else r),
        [.updateWhere (prepareValue name) (prepareValue model) (prepareValue vehicle_number)
          (prepareValue due_date) (prepareValue contact_number) (prepareValue insurer)]⟩ := by
  simp only [update, update_guard_false hn hm hv hd hc hi, poolQuery, hf, execute]
  rfl

/-- A valid update on which the store fails. -/
theorem update_failed (e : Env) (t : Table)
    {name model vehicle_number due_date contact_number insurer : JsVal}
    (hn : name.truthy = true) (hm : model.truthy = true) (hv : vehicle_number.truthy = true)
    (hd : due_date.truthy = true) (hc : contact_number.truthy = true)
    (hi : insurer.truthy = true) {m : String} (hf : e.fault = some m) :
    update e t name model vehicle_number due_date contact_number insurer =
      ⟨⟨500, .text m⟩, t,
        [.updateWhere (prepareValue name) (prepareValue model) (prepareValue vehicle_number)
          (prepareValue due_date) (prepareValue contact_number) (prepareValue insurer)]⟩ := by
  simp only [update, update_guard_false hn hm hv hd hc hi, poolQuery, hf]
  rfl

/-- A valid add that the store executes. -/
theorem add_executed (e : Env) (t : Table)
    {name due_date vehicle_number contact_number model insurer : JsVal}
    (hn : name.truthy = true) (hd : due_date.truthy = true) (hv : vehicle_number.truthy = true)
    (hc : contact_number.truthy = true) (hm : model.truthy = true)
    (hi : insurer.truthy = true) (hf : e.fault = none) :
    add e t name due_date vehicle_number contact_number model insurer =
      ⟨⟨201, .success (some (insertedRow e.freshId (prepareValue name) (prepareValue due_date)
          (prepareValue vehicle_number) (prepareValue contact_number) (prepareValue model)
          (prepareValue insurer) (some e.now)))⟩,
        t ++ [insertedRow e.freshId (prepareValue name) (prepareValue due_date)
          (prepareValue vehicle_number) (prepareValue contact_number) (prepareValue model)
          (prepareValue insurer) (some e.now)],
        [.insertReturning (prepareValue name) (prepareValue due_date)
          (prepareValue vehicle_number) (prepareValue contact_number) (prepareValue model)
          (prepareValue insurer) (some e.now)]⟩ := by
  simp only [add, update_guard_false hn hd hv hc hm hi, poolQuery, hf, execute, prepareValue]
  rfl

/-- A valid add on which the store fails. -/
theorem add_failed (e : Env) (t : Table)
    {name due_date vehicle_number contact_number model insurer : JsVal}
    (hn : name.truthy = true) (hd : due_date.truthy = true) (hv : vehicle_number.truthy = true)
    (hc : contact_number.truthy = true) (hm : model.truthy = true)
    (hi : insurer.truthy = true) {m : String} (hf : e.fault = some m) :
    add e t name due_date vehicle_number contact_number model insurer =
      ⟨⟨500, .failure m⟩, t,
        [.insertReturning (prepareValue name) (prepareValue due_date)
          (prepareValue vehicle_number) (prepareValue contact_number) (prepareValue model)
          (prepareValue insurer) (some e.now)]⟩ := by
  simp only [add, update_guard_false hn hd hv hc hm hi, poolQuery, hf, prepareValue]
  rfl

/-- A delete that the store executes. -/
theorem delete_executed (e : Env) (t : Table) (name model contact_number : JsVal)
    (hf : e.fault = none) :
    delete e t name model contact_number =
      ⟨⟨200, .status "deleted"⟩,
        t.filter (fun r => !deleteCond (prepareValue name) (prepareValue model)
          (prepareValue contact_number) r),
        [.deleteWhere (prepareValue name) (prepareValue model) (prepareValue contact_number)]⟩ := by
  simp only [delete, poolQuery, hf, execute]

/-- A delete on which the store fails. -/
theorem delete_failed (e : Env) (t : Table) (name model contact_number : JsVal)
    {m : String} (hf : e.fault = some m) :
    delete e t name model contact_number =
      ⟨⟨500, .text m⟩, t,
        [.deleteWhere (prepareValue name) (prepareValue model) (prepareValue contact_number)]⟩ := by
  simp only [delete, poolQuery, hf]

/-- A search that the store executes. -/
theorem search_executed (e : Env) (t : Table) (name model : JsVal) (hf : e.fault = none) :
    search e t name model =
      ⟨⟨200, .rows (t.filter (searchWhere (prepareValue name) (prepareValue model)))⟩, t,
        [.selectWhere (prepareValue name) (prepareValue model)]⟩ := by
  simp only [search, poolQuery, hf, execute]

/-- A search on which the store fails. -/
theorem search_failed (e : Env) (t : Table) (name model : JsVal) {m : String}
    (hf : e.fault = some m) :
    search e t name model =
      ⟨⟨500, .text m⟩, t, [.selectWhere (prepareValue name) (prepareValue model)]⟩ := by
  simp only [search, poolQuery, hf]

/-- A list-all that the store executes. -/
theorem getAll_executed (e : Env) (t : Table) (hf : e.fault = none) :
    getAll e t = ⟨⟨200, .rows t⟩, t, [.selectAll]⟩ := by
  simp only [getAll, poolQuery, hf, execute]

/-- A list-all on which the store fails. -/
theorem getAll_failed (e : Env) (t : Table) {m : String} (hf : e.fault = some m) :
    getAll e t = ⟨⟨500, .text m⟩, t, [.selectAll]⟩ := by
  simp only [getAll, poolQuery, hf]

/-- The SET clause applied twice is the SET clause applied once. -/
theorem updateSet_updateSet (p1 p2 p3 p4 p5 p6 : Option String) (r : Row) :
    updateSet p1 p2 p3 p4 p5 p6 (updateSet p1 p2 p3 p4 p5 p6 r) = updateSet p1 p2 p3 p4 p5 p6 r :=
  rfl

/-- The update statement, row by row, is idempotent whatever the rewritten row matches. -/
theorem updateRow_idem (p1 p2 p3 p4 p5 p6 : Option String) (r : Row) :
    (fun r => if updateCond p1 p2 p3 r then updateSet p1 p2 p3 p4 p5 p6 r else r)
        ((fun r => if updateCond p1 p2 p3 r then updateSet p1 p2 p3 p4 p5 p6 r else r) r) =
      (fun r => if updateCond p1 p2 p3 r then updateSet p1 p2 p3 p4 p5 p6 r else r) r := by
  cases h : updateCond p1 p2 p3 r
  · simp only [h, Bool.false_eq_true, if_false]
  · cases h' : updateCond p1 p2 p3 (updateSet p1 p2 p3 p4 p5 p6 r)
    · simp only [h, h', Bool.false_eq_true, if_true, if_false]
    · simp only [h, h', if_true, updateSet_updateSet]

/-- The WHERE clause of the update statement holds when the three conditions hold. -/
theorem updateCond_eq_true_iff (p1 p2 p3 : Option String) (r : Row) :
    updateCond p1 p2 p3 r = true ↔
      ilikeSql r.name p1 = true ∧ ilikeSql r.model p2 = true ∧
        ilikeSql r.vehicle_number p3 = true := by
  simp only [updateCond, Bool.and_eq_true, and_assoc]

/-- The WHERE clause of the delete statement holds when the three conditions hold. -/
theorem deleteCond_eq_true_iff (p1 p2 p3 : Option String) (r : Row) :
    deleteCond p1 p2 p3 r = true ↔
      ilikeSql r.name p1 = true ∧ ilikeSql r.model p2 = true ∧
        ilikeSql r.contact_number p3 = true := by
  simp only [deleteCond, Bool.and_eq_true, and_assoc]

/-! ## Update -/

/-- C3. A valid PUT /update that the store executes rewrites exactly the rows whose name, model and
vehicle_number each match (`ILIKE`) the supplied name, model and vehicle_number: such a row gets
the six supplied values, every other row is what it was, and the table keeps its number of rows. -/
theorem update_changes_exactly_matching_rows (e : Env) (t : Table)
    (name model vehicle_number due_date contact_number insurer : JsVal)
    (hn : name.truthy = true) (hm : model.truthy = true) (hv : vehicle_number.truthy = true)
    (hd : due_date.truthy = true) (hc : contact_number.truthy = true)
    (hi : insurer.truthy = true) (hf : e.fault = none) :
    (update e t name model vehicle_number due_date contact_number insurer).table.length
        = t.length ∧
      ∀ (i : Nat) (r : Row), t[i]? = some r →
        ((ilikeSql r.name (prepareValue name) = true ∧
            ilikeSql r.model (prepareValue model) = true ∧
            ilikeSql r.vehicle_number (prepareValue vehicle_number) = true) →
          (update e t name model vehicle_number due_date contact_number insurer).table[i]? =
            some { r with name := prepareValue name, model := prepareValue model,
                          vehicle_number := prepareValue vehicle_number,
                          due_date := prepareValue due_date,
                          contact_number := prepareValue contact_number,
                          insurer := prepareValue insurer }) ∧
        (¬ (ilikeSql r.name (prepareValue name) = true ∧
            ilikeSql r.model (prepareValue model) = true ∧
            ilikeSql r.vehicle_number (prepareValue vehicle_number) = true) →
          (update e t name model vehicle_number due_date contact_number insurer).table[i]? =
            some r) := by
  rw [update_executed e t hn hm hv hd hc hi hf]
  refine ⟨List.length_map _ _, fun i r hr => ⟨fun hmatch => ?_, fun hno => ?_⟩⟩
  · have h := (updateCond_eq_true_iff _ _ _ r).2 hmatch
    simp only [List.getElem?_map, hr, Option.map_some', h, if_true]
    rfl
  · have h : updateCond (prepareValue name) (prepareValue model)
        (prepareValue vehicle_number) r = false :=
      Bool.eq_false_iff.2 (fun h => hno ((updateCond_eq_true_iff _ _ _ r).1 h))
    simp only [List.getElem?_map, hr, Option.map_some', h, Bool.false_eq_true, if_false]

/-- C10. A valid update applied twice, both times executed by the store, leaves the table the first
application left.  After the first application a row that matched carries exactly the supplied
name, model and vehicle_number, and a row that did not match is what it was (and so still does not
match). -/
theorem update_twice_eq_once (e1 e2 : Env) (t : Table)
    (name model vehicle_number due_date contact_number insurer : JsVal)
    (hn : name.truthy = true) (hm : model.truthy = true) (hv : vehicle_number.truthy = true)
    (hd : due_date.truthy = true) (hc : contact_number.truthy = true)
    (hi : insurer.truthy = true) (hf1 : e1.fault = none) (hf2 : e2.fault = none) :
    (update e2 (update e1 t name model vehicle_number due_date contact_number insurer).table
        name model vehicle_number due_date contact_number insurer).table
      = (update e1 t name model vehicle_number due_date contact_number insurer).table ∧
    ∀ (i : Nat) (r : Row), t[i]? = some r →
      (updateCond (prepareValue name) (prepareValue model) (prepareValue vehicle_number) r = true →
        ∃ r', (update e1 t name model vehicle_number due_date contact_number insurer).table[i]?
            = some r' ∧
          r'.name = prepareValue name ∧ r'.model = prepareValue model ∧
          r'.vehicle_number = prepareValue vehicle_number) ∧
      (updateCond (prepareValue name) (prepareValue model) (prepareValue vehicle_number) r = false →
        (update e1 t name model vehicle_number due_date contact_number insurer).table[i]?
          = some r) := by
  rw [update_executed e2 _ hn hm hv hd hc hi hf2, update_executed e1 t hn hm hv hd hc hi hf1]
  refine ⟨?_, fun i r hr => ⟨fun hmatch => ?_, fun hno => ?_⟩⟩
  · simp only [List.map_map]
    apply List.map_congr_left
    intro r _
    exact updateRow_idem _ _ _ _ _ _ r
  · refine ⟨updateSet (prepareValue name) (prepareValue model) (prepareValue vehicle_number)
      (prepareValue due_date) (prepareValue contact_number) (prepareValue insurer) r,
      ?_, rfl, rfl, rfl⟩
    simp only [List.getElem?_map, hr, Option.map_some', hmatch, if_true]
  · simp only [List.getElem?_map, hr, Option.map_some', hno, Bool.false_eq_true, if_false]

/-! ## Delete -/

/-- C7. After a GET /delete that the store executes, the table is the rows that do not match
(`ILIKE`) the supplied name, model and contact_number on all three fields, unchanged and in the
order they had. -/
theorem delete_removes_exactly_matching_rows (e : Env) (t : Table)
    (name model contact_number : JsVal) (hf : e.fault = none) :
    (delete e t name model contact_number).table =
        t.filter (fun r => !(ilikeSql r.name (prepareValue name) &&
          ilikeSql r.model (prepareValue model) &&
          ilikeSql r.contact_number (prepareValue contact_number))) ∧
      List.Sublist (delete e t name model contact_number).table t ∧
      ∀ r : Row, r ∈ (delete e t name model contact_number).table ↔
        r ∈ t ∧ ¬ (ilikeSql r.name (prepareValue name) = true ∧
          ilikeSql r.model (prepareValue model) = true ∧
          ilikeSql r.contact_number (prepareValue contact_number) = true) := by
  rw [delete_executed e t name model contact_number hf]
  refine ⟨rfl, List.filter_sublist _, fun r => ?_⟩
  simp only [List.mem_filter, Bool.not_eq_true', ← Bool.not_eq_true, deleteCond_eq_true_iff]

/-- C6. A GET /delete that matches no row and that the store executes is answered with status 200
and `{status: "deleted"}`, and the table is what it was; and the same delete issued again after an
executed delete gets the same answer and leaves the table as the first delete left it. -/
theorem delete_zero_rows_reports_deleted (e1 e2 : Env) (t : Table)
    (name model contact_number : JsVal) (hf1 : e1.fault = none) (hf2 : e2.fault = none) :
    ((∀ r ∈ t, ¬ (ilikeSql r.name (prepareValue name) = true ∧
          ilikeSql r.model (prepareValue model) = true ∧
          ilikeSql r.contact_number (prepareValue contact_number) = true)) →
        (delete e1 t name model contact_number).response = ⟨200, .status "deleted"⟩ ∧
        (delete e1 t name model contact_number).table = t) ∧
      (delete e1 t name model contact_number).response = ⟨200, .status "deleted"⟩ ∧
      (delete e2 (delete e1 t name model contact_number).table name model contact_number).response
        = (delete e1 t name model contact_number).response ∧
      (delete e2 (delete e1 t name model contact_number).table name model contact_number).table
        = (delete e1 t name model contact_number).table := by
  rw [delete_executed e2 _ name model contact_number hf2,
    delete_executed e1 t name model contact_number hf1]
  refine ⟨fun hzero => ⟨rfl, ?_⟩, rfl, rfl, ?_⟩
  · apply List.filter_eq_self.2
    intro r hr
    have h := hzero r hr
    rw [← deleteCond_eq_true_iff] at h
    simp only [Bool.not_eq_true] at h
    simp only [h, Bool.not_false]
  · simp only [List.filter_filter, Bool.and_self]

/-! ## Add -/

/-- C4. A POST /add with the six fields present that the store executes is answered with status
201, `success: true` and the inserted row as data.  That row carries the six supplied values, the
key the store assigned and the creation instant as joining_date (neither is null); a list-all
right afterwards contains it; the table is the former table with this one row more, and the same
add once more gives a table of two rows more. -/
theorem add_then_list (e e2 e3 : Env) (t : Table)
    (name due_date vehicle_number contact_number model insurer : JsVal)
    (hn : name.truthy = true) (hd : due_date.truthy = true) (hv : vehicle_number.truthy = true)
    (hc : contact_number.truthy = true) (hm : model.truthy = true)
    (hi : insurer.truthy = true)
    (hf : e.fault = none) (hf2 : e2.fault = none) (hf3 : e3.fault = none) :
    ∃ row : Row,
      (add e t name due_date vehicle_number contact_number model insurer).response
        = ⟨201, .success (some row)⟩ ∧
      (row.name = prepareValue name ∧ row.due_date = prepareValue due_date ∧
        row.vehicle_number = prepareValue vehicle_number ∧
        row.contact_number = prepareValue contact_number ∧
        row.model = prepareValue model ∧ row.insurer = prepareValue insurer) ∧
      (row.id = e.freshId ∧ row.joining_date = some e.now ∧ row.joining_date ≠ none) ∧
      (∃ rs, (getAll e2 (add e t name due_date vehicle_number contact_number model
          insurer).table).response = ⟨200, .rows rs⟩ ∧ row ∈ rs) ∧
      (add e t name due_date vehicle_number contact_number model insurer).table = t ++ [row] ∧
      (add e t name due_date vehicle_number contact_number model insurer).table.length
        = t.length + 1 ∧
      (add e3 (add e t name due_date vehicle_number contact_number model insurer).table
        name due_date vehicle_number contact_number model insurer).table.length
        = t.length + 2 := by
  rw [add_executed e3 _ hn hd hv hc hm hi hf3, add_executed e t hn hd hv hc hm hi hf]
  refine ⟨_, rfl, ⟨rfl, rfl, rfl, rfl, rfl, rfl⟩, ⟨rfl, rfl, ?_⟩, ?_, rfl, ?_, ?_⟩
  · simp [insertedRow]
  · rw [getAll_executed e2 _ hf2]
    exact ⟨_, rfl, by simp⟩
  · simp
  · simp

/-! ## Immutable columns -/

/-- C8. No operation changes the id or the joining_date of a row that stays: list and search leave
the table as it is, delete keeps a sublist of unchanged rows, update keeps id and joining_date of
every row at its place, and add keeps the former rows and stamps only the row it appends. -/
theorem id_and_joining_date_immutable (e : Env) (t : Table) :
    (handle e t .getAll).table = t ∧
    (∀ name model, (handle e t (.search name model)).table = t) ∧
    (∀ name model contact_number,
      List.Sublist (handle e t (.delete name model contact_number)).table t) ∧
    (∀ name model vehicle_number due_date contact_number insurer,
      (handle e t (.update name model vehicle_number due_date contact_number insurer)).table.map
          (fun r => (r.id, r.joining_date))
        = t.map (fun r => (r.id, r.joining_date))) ∧
    (∀ name due_date vehicle_number contact_number model insurer,
      ∃ extra : List Row,
        (handle e t (.add name due_date vehicle_number contact_number model insurer)).table
          = t ++ extra ∧
        extra.length ≤ 1 ∧ ∀ r ∈ extra, r.id = e.freshId ∧ r.joining_date = some e.now) := by
  refine ⟨?_, ?_, ?_, ?_, ?_⟩
  · cases hf : e.fault with
    | none => simp only [handle, getAll_executed e t hf]
    | some m => simp only [handle, getAll_failed e t hf]
  · intro name model
    cases hf : e.fault with
    | none => simp only [handle, search_executed e t name model hf]
    | some m => simp only [handle, search_failed e t name model hf]
  · intro name model contact_number
    cases hf : e.fault with
    | none =>
      simp only [handle, delete_executed e t name model contact_number hf]
      exact List.filter_sublist _
    | some m =>
      simp only [handle, delete_failed e t name model contact_number hf]
      exact List.Sublist.refl _
  · intro name model vehicle_number due_date contact_number insurer
    simp only [handle, update]
    split
    · rfl
    · cases hf : e.fault with
      | none =>
        simp only [poolQuery, hf, execute, List.map_map]
        apply List.map_congr_left
        intro r _
        simp only [Function.comp]
        split <;> rfl
      | some m => simp only [poolQuery, hf]
  · intro name due_date vehicle_number contact_number model insurer
    simp only [handle, add]
    split
    · exact ⟨[], by simp, by simp, by simp⟩
    · cases hf : e.fault with
      | none =>
        simp only [poolQuery, hf, execute]
        exact ⟨[_], rfl, by simp, by simp [insertedRow, prepareValue]⟩
      | some m =>
        simp only [poolQuery, hf]
        exact ⟨[], by simp, by simp, by simp⟩

/-! ## Store errors -/

/-- C9. When the store fails with message `m`, each of the five handlers (update and add past their
validation) answers with status 500 and `m` as it is: as the plain body for getAll, search, delete
and update, as `{success: false, error: m}` for add; and no handler sends a success body. -/
theorem store_error_reported (e : Env) (t : Table) (m : String) (hf : e.fault = some m) :
    (getAll e t).response = ⟨500, .text m⟩ ∧
    (∀ name model, (search e t name model).response = ⟨500, .text m⟩) ∧
    (∀ name model contact_number,
      (delete e t name model contact_number).response = ⟨500, .text m⟩) ∧
    (∀ name model vehicle_number due_date contact_number insurer : JsVal,
      name.truthy = true → model.truthy = true → vehicle_number.truthy = true →
      due_date.truthy = true → contact_number.truthy = true → insurer.truthy = true →
      (update e t name model vehicle_number due_date contact_number insurer).response
        = ⟨500, .text m⟩) ∧
    (∀ name due_date vehicle_number contact_number model insurer : JsVal,
      name.truthy = true → due_date.truthy = true → vehicle_number.truthy = true →
      contact_number.truthy = true → model.truthy = true → insurer.truthy = true →
      (add e t name due_date vehicle_number contact_number model insurer).response
        = ⟨500, .failure m⟩) ∧
    (∀ q : Request, (handle e t q).response.body ≠ .status "deleted" ∧
      (handle e t q).response.body ≠ .status "updated" ∧
      ∀ d, (handle e t q).response.body ≠ .success d) := by
  refine ⟨?_, ?_, ?_, ?_, ?_, ?_⟩
  · rw [getAll_failed e t hf]
  · intro name model
    rw [search_failed e t name model hf]
  · intro name model contact_number
    rw [delete_failed e t name model contact_number hf]
  · intro name model vehicle_number due_date contact_number insurer hn hm hv hd hc hi
    rw [update_failed e t hn hm hv hd hc hi hf]
  · intro name due_date vehicle_number contact_number model insurer hn hd hv hc hm hi
    rw [add_failed e t hn hd hv hc hm hi hf]
  · intro q
    cases q with
    | getAll => simp [handle, getAll_failed e t hf]
    | search n m' => simp [handle, search_failed e t n m' hf]
    | delete n m' c => simp [handle, delete_failed e t n m' c hf]
    | update n m' v d c i =>
      simp only [handle, update, poolQuery, hf]
      split <;> simp
    | add n d v c m' i =>
      simp only [handle, add, poolQuery, hf]
      split <;> simp

/-! ## Search -/

/-- A pattern that matches the whole text matches a suffix of it. -/
theorem anySuffix_of_apply {f : List Char → Bool} {t : List Char} (h : f t = true) :
    anySuffix f t = true := by
  cases t with
  | nil => simpa only [anySuffix] using h
  | cons c t => simp only [anySuffix, h, Bool.true_or]

/-- A suffix of the tail is a suffix of the text. -/
theorem anySuffix_cons {f : List Char → Bool} {t : List Char} (c : Char)
    (h : anySuffix f t = true) : anySuffix f (c :: t) = true := by
  simp only [anySuffix, h, Bool.or_true]

/-- The matcher on a pattern that has a first character, by what that character is. -/
theorem likeFrom_cons (c : Char) (p t : List Char) (lit : Bool) :
    likeFrom (c :: p) lit t =
      if lit then
        match t with
        | [] => false
        | x :: t' => decide (c = x) && likeFrom p false t'
      else if c = '%' then anySuffix (likeFrom p false) t
      else if c = '_' then
        match t with
        | [] => false
        | _ :: t' => likeFrom p false t'
      else if c = escapeChar then likeFrom p true t
      else
        match t with
        | [] => false
        | x :: t' => decide (c = x) && likeFrom p false t' :=
  rfl

/-- A text without the escape character, read as a pattern, matches itself: `%` and `_` in it
stand for themselves among others. -/
theorem likeMatch_self (l : List Char) (h : escapeChar ∉ l) : likeMatch l l = true := by
  unfold likeMatch
  induction l with
  | nil => rfl
  | cons c p ih =>
    have hc : ¬ c = escapeChar := fun hc => h (hc ▸ List.mem_cons_self _ _)
    have hp : escapeChar ∉ p := fun hp => h (List.mem_cons_of_mem _ hp)
    rw [likeFrom_cons, if_neg Bool.false_ne_true]
    by_cases h1 : c = '%'
    · rw [if_pos h1]
      exact anySuffix_cons c (anySuffix_of_apply (ih hp))
    · rw [if_neg h1]
      by_cases h2 : c = '_'
      · rw [if_pos h2]
        exact ih hp
      · rw [if_neg h2, if_neg hc]
        show (decide (c = c) && likeFrom p false p) = true
        rw [decide_eq_true rfl, Bool.true_and]
        exact ih hp

/-- Case folding never produces the escape character from another character. -/
theorem toLower_ne_escapeChar (c : Char) (h : c ≠ escapeChar) : c.toLower ≠ escapeChar := by
  unfold Char.toLower
  simp only
  split
  · rename_i hr
    have key : ∀ n : Nat, 65 ≤ n → n ≤ 90 → Char.ofNat (n + 32) ≠ escapeChar := by
      intro n h1 h2
      interval_cases n <;> decide
    exact key _ hr.1 hr.2
  · exact h

/-- A text without the escape character folds to a text without it. -/
theorem escapeChar_not_mem_lower (s : String) (h : escapeChar ∉ s.data) :
    escapeChar ∉ lower s := by
  intro hmem
  simp only [lower, List.mem_map] at hmem
  obtain ⟨c, hc, hce⟩ := hmem
  by_cases hcc : c = escapeChar
  · exact h (hcc ▸ hc)
  · exact toLower_ne_escapeChar c hcc hce

/-- A text without the escape character matches (`ILIKE`) each of its variants in the case of basic
Latin letters. -/
theorem ilike_latinCaseVariant (n n' : String) (hv : latinCaseVariant n' n)
    (h : escapeChar ∉ n.data) :
    ilike n n' = true := by
  unfold latinCaseVariant at hv
  simp only [ilike, hv]
  exact likeMatch_self _ (escapeChar_not_mem_lower n h)

/-- C5, amended. A GET /search that the store executes answers with a list of rows of the table
that each match (`ILIKE`) the supplied name and the supplied model; and a row of the table whose
name and model contain no escape character (backslash) is in the answer to a search by any texts
that differ from its name and model only in the case of basic Latin letters (`A`-`Z`, `a`-`z`).
Variants in the case of other letters are not covered. -/
theorem search_finds_latin_case_variants (e : Env) (t : Table) (name model : JsVal)
    (hf : e.fault = none) :
    ∃ rs, (search e t name model).response = ⟨200, .rows rs⟩ ∧
      (∀ x ∈ rs, x ∈ t ∧ ilikeSql x.name (prepareValue name) = true ∧
        ilikeSql x.model (prepareValue model) = true) ∧
      (∀ (r : Row) (n m n' m' : String), r ∈ t → r.name = some n → r.model = some m →
        name = .str n' → model = .str m' → latinCaseVariant n' n → latinCaseVariant m' m →
        escapeChar ∉ n.data → escapeChar ∉ m.data → r ∈ rs) := by
  rw [search_executed e t name model hf]
  refine ⟨_, rfl, fun x hx => ?_, fun r n m n' m' hr hn hm hqn hqm hvn hvm hen hem => ?_⟩
  · simpa only [List.mem_filter, searchWhere, Bool.and_eq_true] using hx
  · subst hqn hqm
    simp only [List.mem_filter, searchWhere, Bool.and_eq_true, hn, hm, prepareValue, ilikeSql]
    exact ⟨hr, ilike_latinCaseVariant n n' hvn hen, ilike_latinCaseVariant m m' hvm hem⟩

/-- C5 as stated fails: a row whose name is `a`, backslash, `b` is in the table, and the search by
exactly this name and its model, executed by the store, answers with the empty list. -/
theorem search_misses_name_with_escape :
    slashRow ∈ [slashRow] ∧ slashRow.name = some slashName ∧ slashRow.model = some "Civic" ∧
      latinCaseVariant slashName slashName ∧ latinCaseVariant "Civic" "Civic" ∧
      (search envOk [slashRow] (.str slashName) (.str "Civic")).response = ⟨200, .rows []⟩ ∧
      slashRow ∉ ([] : List Row) := by
  refine ⟨by decide, rfl, rfl, rfl, rfl, by decide, by decide⟩

/-! ## Instances on the sample data -/

/-- C1 at an update with an empty insurer. -/
theorem update_missing_field_rejected_witness :
    ((JsVal.str "Alice").truthy = false ∨ (JsVal.str "Civic").truthy = false ∨
        (JsVal.str "KA01AB1234").truthy = false ∨ (JsVal.str "2026-01-31").truthy = false ∨
        (JsVal.str "9876543210").truthy = false ∨ (JsVal.str "").truthy = false) ∧
      ((update envOk sampleTable (.str "Alice") (.str "Civic") (.str "KA01AB1234")
          (.str "2026-01-31") (.str "9876543210") (.str "")).response
          = ⟨400, .error "Missing one or more required fields"⟩ ∧
        (update envOk sampleTable (.str "Alice") (.str "Civic") (.str "KA01AB1234")
          (.str "2026-01-31") (.str "9876543210") (.str "")).issued = [] ∧
        (update envOk sampleTable (.str "Alice") (.str "Civic") (.str "KA01AB1234")
          (.str "2026-01-31") (.str "9876543210") (.str "")).table = sampleTable) :=
  ⟨by decide,
    update_missing_field_rejected envOk sampleTable (.str "Alice") (.str "Civic")
      (.str "KA01AB1234") (.str "2026-01-31") (.str "9876543210") (.str "") (by decide)⟩

/-- C2 at an add without insurer. -/
theorem add_missing_field_rejected_witness :
    ((JsVal.str "Carol").truthy = false ∨ (JsVal.str "2026-01-31").truthy = false ∨
        (JsVal.str "TN04GH3456").truthy = false ∨ (JsVal.str "9000000002").truthy = false ∨
        (JsVal.str "Polo").truthy = false ∨ JsVal.undefined.truthy = false) ∧
      ((add envOk sampleTable (.str "Carol") (.str "2026-01-31") (.str "TN04GH3456")
          (.str "9000000002") (.str "Polo") .undefined).response
          = ⟨400, .failure "Missing required fields"⟩ ∧
        (add envOk sampleTable (.str "Carol") (.str "2026-01-31") (.str "TN04GH3456")
          (.str "9000000002") (.str "Polo") .undefined).issued = [] ∧
        (add envOk sampleTable (.str "Carol") (.str "2026-01-31") (.str "TN04GH3456")
          (.str "9000000002") (.str "Polo") .undefined).table = sampleTable ∧
        (getAll envOk (add envOk sampleTable (.str "Carol") (.str "2026-01-31")
          (.str "TN04GH3456") (.str "9000000002") (.str "Polo") .undefined).table).response
          = (getAll envOk sampleTable).response) :=
  ⟨by decide,
    add_missing_field_rejected envOk envOk sampleTable (.str "Carol") (.str "2026-01-31")
      (.str "TN04GH3456") (.str "9000000002") (.str "Polo") .undefined (by decide)⟩

/-- C3 at an update of Alice by a lower and upper case spelling of her triple: her row is
rewritten, Bob's is not. -/
theorem update_changes_exactly_matching_rows_witness :
    ((JsVal.str "alice").truthy = true ∧ (JsVal.str "CIVIC").truthy = true ∧
        (JsVal.str "ka01ab1234").truthy = true ∧ (JsVal.str "2026-01-31").truthy = true ∧
        (JsVal.str "9999999999").truthy = true ∧ (JsVal.str "NewCo").truthy = true ∧
        envOk.fault = none) ∧
      (update envOk sampleTable (.str "alice") (.str "CIVIC") (.str "ka01ab1234")
        (.str "2026-01-31") (.str "9999999999") (.str "NewCo")).table.length = 2 ∧
      (update envOk sampleTable (.str "alice") (.str "CIVIC") (.str "ka01ab1234")
        (.str "2026-01-31") (.str "9999999999") (.str "NewCo")).table[0]? =
        some ⟨1, some "alice", some "CIVIC", some "ka01ab1234", some "9999999999", some "NewCo",
          some "2026-01-31", some "2024-01-01T00:00:00.000Z"⟩ ∧
      (update envOk sampleTable (.str "alice") (.str "CIVIC") (.str "ka01ab1234")
        (.str "2026-01-31") (.str "9999999999") (.str "NewCo")).table[1]? = some bobRow := by
  have h := update_changes_exactly_matching_rows envOk sampleTable (.str "alice") (.str "CIVIC")
    (.str "ka01ab1234") (.str "2026-01-31") (.str "9999999999") (.str "NewCo")
    (by decide) (by decide) (by decide) (by decide) (by decide) (by decide) rfl
  exact ⟨by decide, h.1, (h.2 0 aliceRow rfl).1 (by decide), (h.2 1 bobRow rfl).2 (by decide)⟩

/-- C4 at the add of Carol: the answer carries her row with key 3, and two such adds make four
rows of two. -/
theorem add_then_list_witness :
    ((JsVal.str "Carol").truthy = true ∧ (JsVal.str "2026-01-31").truthy = true ∧
        (JsVal.str "TN04GH3456").truthy = true ∧ (JsVal.str "9000000002").truthy = true ∧
        (JsVal.str "Polo").truthy = true ∧ (JsVal.str "Acme").truthy = true ∧
        envOk.fault = none) ∧
      ∃ row : Row,
        (add envOk sampleTable (.str "Carol") (.str "2026-01-31") (.str "TN04GH3456")
          (.str "9000000002") (.str "Polo") (.str "Acme")).response
          = ⟨201, .success (some row)⟩ ∧
        row.name = some "Carol" ∧ row.id = 3 ∧
        row.joining_date = some "2024-05-01T10:00:00.000Z" ∧
        (add envOk sampleTable (.str "Carol") (.str "2026-01-31") (.str "TN04GH3456")
          (.str "9000000002") (.str "Polo") (.str "Acme")).table = sampleTable ++ [row] ∧
        (add envOk (add envOk sampleTable (.str "Carol") (.str "2026-01-31") (.str "TN04GH3456")
          (.str "9000000002") (.str "Polo") (.str "Acme")).table (.str "Carol")
          (.str "2026-01-31") (.str "TN04GH3456") (.str "9000000002") (.str "Polo")
          (.str "Acme")).table.length = 4 := by
  obtain ⟨row, h1, h2, h3, _, h5, _, h7⟩ := add_then_list envOk envOk envOk sampleTable
    (.str "Carol") (.str "2026-01-31") (.str "TN04GH3456") (.str "9000000002") (.str "Polo")
    (.str "Acme") (by decide) (by decide) (by decide) (by decide) (by decide) (by decide)
    rfl rfl rfl
  exact ⟨by decide, row, h1, h2.1, h3.1, h3.2.1, h5, h7⟩

/-- C5 (amended) on the example of the specification: the row of Alice and her Civic is in the
answer to the search by `alice` and `CIVIC`. -/
theorem search_finds_latin_case_variants_witness :
    envOk.fault = none ∧
      ∃ rs, (search envOk sampleTable (.str "alice") (.str "CIVIC")).response
          = ⟨200, .rows rs⟩ ∧ aliceRow ∈ rs := by
  obtain ⟨rs, h1, _, h3⟩ :=
    search_finds_latin_case_variants envOk sampleTable (.str "alice") (.str "CIVIC") rfl
  exact ⟨rfl, rs, h1, h3 aliceRow "Alice" "Civic" "alice" "CIVIC" (by decide) rfl rfl rfl rfl
    (by decide) (by decide) (by decide) (by decide)⟩

/-- C6 at a delete that matches neither Alice nor Bob. -/
theorem delete_zero_rows_reports_deleted_witness :
    (envOk.fault = none ∧
        ∀ r ∈ sampleTable, ¬ (ilikeSql r.name (prepareValue (.str "Zed")) = true ∧
          ilikeSql r.model (prepareValue (.str "Civic")) = true ∧
          ilikeSql r.contact_number (prepareValue (.str "9876543210")) = true)) ∧
      (delete envOk sampleTable (.str "Zed") (.str "Civic") (.str "9876543210")).response
        = ⟨200, .status "deleted"⟩ ∧
      (delete envOk sampleTable (.str "Zed") (.str "Civic") (.str "9876543210")).table
        = sampleTable ∧
      (delete envOk (delete envOk sampleTable (.str "Zed") (.str "Civic")
          (.str "9876543210")).table (.str "Zed") (.str "Civic") (.str "9876543210")).table
        = (delete envOk sampleTable (.str "Zed") (.str "Civic") (.str "9876543210")).table := by
  have hz : ∀ r ∈ sampleTable, ¬ (ilikeSql r.name (prepareValue (.str "Zed")) = true ∧
      ilikeSql r.model (prepareValue (.str "Civic")) = true ∧
      ilikeSql r.contact_number (prepareValue (.str "9876543210")) = true) := by decide
  have h := delete_zero_rows_reports_deleted envOk envOk sampleTable (.str "Zed") (.str "Civic")
    (.str "9876543210") rfl rfl
  exact ⟨⟨rfl, hz⟩, (h.1 hz).1, (h.1 hz).2, h.2.2.2⟩

/-- C7 at the delete of Alice by an upper case spelling: Bob's row is what is left. -/
theorem delete_removes_exactly_matching_rows_witness :
    envOk.fault = none ∧
      (delete envOk sampleTable (.str "ALICE") (.str "civic") (.str "9876543210")).table
        = [bobRow] := by
  have h := (delete_removes_exactly_matching_rows envOk sampleTable (.str "ALICE") (.str "civic")
    (.str "9876543210") rfl).1
  exact ⟨rfl, h.trans (by decide)⟩

/-- C9 at a store that refuses the connection. -/
theorem store_error_reported_witness :
    envDown.fault = some "connection refused" ∧
      (getAll envDown sampleTable).response = ⟨500, .text "connection refused"⟩ ∧
      (delete envDown sampleTable (.str "Alice") (.str "Civic") (.str "9876543210")).response
        = ⟨500, .text "connection refused"⟩ ∧
      (add envDown sampleTable (.str "Carol") (.str "2026-01-31") (.str "TN04GH3456")
        (.str "9000000002") (.str "Polo") (.str "Acme")).response
        = ⟨500, .failure "connection refused"⟩ := by
  have h := store_error_reported envDown sampleTable "connection refused" rfl
  exact ⟨rfl, h.1, h.2.2.1 _ _ _,
    h.2.2.2.2.1 (.str "Carol") (.str "2026-01-31") (.str "TN04GH3456") (.str "9000000002")
      (.str "Polo") (.str "Acme") (by decide) (by decide) (by decide) (by decide) (by decide)
      (by decide)⟩

/-- C10 at the update of every row by the pattern `%`: the second application changes nothing. -/
theorem update_twice_eq_once_witness :
    ((JsVal.str "%").truthy = true ∧ (JsVal.str "2026-01-31").truthy = true ∧
        (JsVal.str "9999999999").truthy = true ∧ (JsVal.str "NewCo").truthy = true ∧
        envOk.fault = none) ∧
      (update envOk (update envOk sampleTable (.str "%") (.str "%") (.str "%")
          (.str "2026-01-31") (.str "9999999999") (.str "NewCo")).table
          (.str "%") (.str "%") (.str "%") (.str "2026-01-31") (.str "9999999999")
          (.str "NewCo")).table
        = (update envOk sampleTable (.str "%") (.str "%") (.str "%")
          (.str "2026-01-31") (.str "9999999999") (.str "NewCo")).table := by
  have h := update_twice_eq_once envOk envOk sampleTable (.str "%") (.str "%") (.str "%")
    (.str "2026-01-31") (.str "9999999999") (.str "NewCo")
    (by decide) (by decide) (by decide) (by decide) (by decide) (by decide) rfl rfl
  exact ⟨by decide, h.1⟩

end InsuranceApi
